import Mathlib

/-!
Verification of the control core of `pid-ec-acpi-fan-controller` (src/main.rs),
a PID-based fan-control daemon driving embedded-controller (EC) registers.

Modelling conventions (shallow embedding of the Rust source):
* `f64` is modelled as `ℚ` with exact arithmetic; the source's float literals
  (`0.5`, `0.1`, …) become the exact rationals they denote.
* `u8`/`u64` values are modelled as `Nat`; the narrowing cast `as u8` is an
  explicit `% 256`, and `u64` parsing carries an explicit `< 2 ^ 64` bound.
* Fallible operations return `Option`/`Except`; a Rust `.unwrap()` on `None`
  (a panic) is modelled as the `none` outcome of the enclosing function.
* Hardware register writes are modelled as trace events `EcWrite`; whether a
  given write attempt succeeds at the OS level is supplied by an environment.
* `CircularQueue::with_capacity(10)` with newest-first iteration is modelled
  as a newest-first `List Temperature` where `push` takes the first 10.
* The asynchronous cancellation flag is modelled by the number `n` of loop
  iterations that observe the flag unset before it is observed set; the
  temperature readers are modelled as environment-supplied successful
  readings (their own failure paths are panics, outside the claims below).
-/

/-! ## Protocol constants (src/main.rs lines 13-26) -/

def POLLING_INTERVAL : Nat := 5000

def GPU_CONTROL_REGISTER : Nat := 0x89
def GPU_TEMPERATURE_REGISTER : Nat := 0xb7
def GPU_ACQUIRE_CONTROL : Nat := 0x04
def GPU_RELEASE_CONTROL : Nat := 0x12
def GPU_SPEED_CONTROL_REGISTER : Nat := 0xb7

def CPU_CONTROL_REGISTER : Nat := 0xf4
def CPU_TEMPERATURE_REGISTER : Nat := 0x58
def CPU_ACQUIRE_CONTROL : Nat := 0x02
def CPU_RELEASE_CONTROL : Nat := 0x00
def CPU_SPEED_CONTROL_REGISTER : Nat := 0xf4

/-! ## Temperature and parsing (src/main.rs lines 30-70) -/

/-- `struct TemperatureParseError` (line 31). -/
inductive TemperatureParseError
  | mk
deriving DecidableEq

/-- `struct Temperature(u8)` (line 37): the `u8` payload is a `Nat`; every
constructor in the source goes through a cast that is modelled as `% 256`. -/
structure Temperature where
  val : Nat
deriving DecidableEq

/-- Rust `u64::from_str` first strips one optional leading `+` sign. -/
def stripPlusSign (cs : List Char) : List Char :=
  match cs with
  | c :: rest => if c = '+' then rest else c :: rest
  | [] => []

/-- Model of Rust `s.parse::<u64>()`: after the optional `+`, the token must be
a non-empty run of decimal digits whose value fits in 64 bits; the value is
accumulated most-significant-digit first. -/
def parse_u64 (s : String) : Option Nat :=
  let cs := stripPlusSign s.data
  if cs.isEmpty then none
  else if cs.all Char.isDigit then
    let n := cs.foldl (fun a c => 10 * a + (c.toNat - 48)) 0
    if n < 2 ^ 64 then some n else none
  else none

/-- `Temperature::from_milli_c` (lines 40-44): parse as `u64`, divide by 1000
(integer floor division), narrow with `as u8` (the `% 256`). -/
def Temperature.from_milli_c (s : String) : Except TemperatureParseError Temperature :=
  match parse_u64 s with
  | none => Except.error TemperatureParseError.mk
  | some t => Except.ok ⟨t / 1000 % 256⟩

/-- Little-endian digit expansion with explicit fuel (the fuel is only there
to make the recursion structural; `n` itself is always enough fuel). -/
def toDigitsAux : Nat → Nat → List Nat
  | 0, _ => []
  | fuel + 1, n => if n = 0 then [] else n % 10 :: toDigitsAux fuel (n / 10)

/-- The decimal token for `n`: its base-10 digits, most significant first. -/
def natToken (n : Nat) : String :=
  if n = 0 then "0" else String.mk ((toDigitsAux n n).reverse.map Nat.digitChar)

/-- Value of a little-endian digit list. -/
def ofDigitsLE : List Nat → Nat
  | [] => 0
  | d :: ds => d + 10 * ofDigitsLE ds

/-! ## EC fan speed command tables (src/main.rs lines 72-94) -/

/-- `struct EcFanSpeedCommands` (lines 72-78). -/
structure EcFanSpeedCommands where
  _0_pc : Nat
  _25_pc : Nat
  _50_pc : Nat
  _75_pc : Nat
  _100_pc : Nat
deriving DecidableEq

/-- `CPU_FAN_SPEED_COMMANDS` (lines 80-86). -/
def CPU_FAN_SPEED_COMMANDS : EcFanSpeedCommands :=
  ⟨0x9, 0xa, 0x3d, 0x42, 0x47⟩

/-- `GPU_FAN_SPEED_COMMANDS` (lines 88-94). -/
def GPU_FAN_SPEED_COMMANDS : EcFanSpeedCommands :=
  ⟨0x38, 0x40, 0x48, 0x50, 0x58⟩

/-! ## Temperature sources (src/main.rs lines 132-140) -/

/-- Model of Rust `str::strip_suffix('\n')` as used at line 138: `some` of the
content with the final newline removed when the content ends in a newline,
`none` otherwise. -/
def strip_newline (s : String) : Option String :=
  match s.data.getLast? with
  | some c => if c = '\n' then some (String.mk s.data.dropLast) else none
  | none => none

/-- `read_i7_cpu_temp` (lines 136-140) as a function of the sysfs file content.
The source calls `.unwrap()` on the `strip_suffix` result, so content without
a trailing newline makes the process panic: that outcome is the `none` case.
The file-read itself is taken as successful (its failure is also a panic). -/
def read_i7_cpu_temp (content : String) : Option (Except TemperatureParseError Temperature) :=
  match strip_newline content with
  | none => none
  | some temp => some (Temperature.from_milli_c temp)

/-! ## PID controller (src/main.rs lines 173-199) -/

/-- `pid_controller` (lines 173-199). The history iterator is a newest-first
list; `error_vals` is the per-sample error, the integral is the plain sum of
all errors, the derivative divides the two newest errors' difference by the
polling interval. The `println!` diagnostic has no modelled effect. -/
def pid_controller (target : ℚ) (temperature_history : List Temperature)
    (polling_interval : Nat) (proportional_gain integral_gain derivative_gain : ℚ) : ℚ :=
  let error_vals := temperature_history.map fun x => (x.val : ℚ) - target
  match error_vals with
  | [] => 0
  | [latest_err] => proportional_gain * latest_err
  | latest_err :: previous_err :: _ =>
    let integral := error_vals.sum
    let derivative := (latest_err - previous_err) / (polling_interval : ℚ)
    proportional_gain * latest_err + integral_gain * integral + derivative_gain * derivative

/-! ## Gain-to-speed mappers (src/main.rs lines 201-221) -/

/-- `map_gain_to_gpu_fan_speed` (lines 201-209). -/
def map_gain_to_gpu_fan_speed (gain : ℚ) : Nat :=
  if gain < 15 then 0x38
  else if gain < 25 then 0x40
  else if gain < 35 then 0x48
  else if gain < 45 then 0x50
  else 0x58

/-- `map_gain_to_cpu_fan_speed` (lines 211-221). -/
def map_gain_to_cpu_fan_speed (gain : ℚ) : Nat :=
  if gain < 10 then 0x30
  else if gain < 20 then 0x38
  else if gain < 30 then 0x40
  else if gain < 40 then 0x48
  else if gain < 50 then 0x50
  else if gain < 60 then 0x58
  else 0x60

/-! ## EC register writes, lease, and the control loop (src/main.rs lines 96-119, 223-284) -/

/-- One `write_to_ec_register(register_offset, command)` call (lines 152-156),
recorded as a trace event. -/
structure EcWrite where
  reg : Nat
  val : Nat
deriving DecidableEq

/-- Number of occurrences of the exact write `w` in a trace. -/
def countWrite (tr : List EcWrite) (w : EcWrite) : Nat :=
  (tr.filter fun x => x = w).length

/-- Number of writes in a trace aimed at register `r` (any value). -/
def countReg (tr : List EcWrite) (r : Nat) : Nat :=
  (tr.filter fun x => x.reg = r).length

/-- `struct HoldEcFanControl` (lines 96-99): the lease value remembers where
and what to write on release. -/
structure HoldEcFanControl where
  control_register_offset : Nat
  release_control_value : Nat

/-- `impl Drop for HoldEcFanControl` (lines 101-105): dropping the lease
issues the release write. -/
def HoldEcFanControl.drop (h : HoldEcFanControl) : EcWrite :=
  ⟨h.control_register_offset, h.release_control_value⟩

/-- `HoldEcFanControl::new` (lines 107-119): the acquire write is issued; if
the OS accepts it (`writeOk`) a lease value is produced, otherwise the `?`
operator propagates the I/O error and no lease value exists. -/
def HoldEcFanControl.new (writeOk : Bool)
    (control_register_offset acquire_control_value release_control_value : Nat) :
    List EcWrite × Option HoldEcFanControl :=
  ([⟨control_register_offset, acquire_control_value⟩],
   if writeOk then some ⟨control_register_offset, release_control_value⟩ else none)

/-- Environment for a run of `main`: which acquire writes succeed, the
temperature read at each iteration (any `u8` reading; `% 256` is applied at
use), and whether each iteration's speed writes succeed at the OS level. -/
structure MainEnv where
  gpuAcquireOk : Bool
  cpuAcquireOk : Bool
  gpuTemp : Nat → Nat
  cpuTemp : Nat → Nat
  gpuWriteOk : Nat → Bool
  cpuWriteOk : Nat → Bool

/-- The loop-carried mutable state of `main` (lines 239-244): the two
temperature histories and the last-applied fan speed per subsystem. -/
structure ControlState where
  gpu_temperature_history : List Temperature
  cpu_temperature_history : List Temperature
  last_gpu_fan_speed : Nat
  last_cpu_fan_speed : Nat
deriving DecidableEq

/-- `CircularQueue::push` on a capacity-10 queue, viewed newest-first. -/
def push_history (h : List Temperature) (t : Temperature) : List Temperature :=
  (t :: h).take 10

/-- GPU speed for the cycle: history pushed, then `pid_controller` with the
operating parameters of lines 248-255 (`kp=0.5`, `ki=0.1`,
`kd=POLLING_INTERVAL*2.0`), then `map_gain_to_gpu_fan_speed` (line 265). -/
def gpu_next_speed (env : MainEnv) (k : Nat) (s : ControlState) : Nat :=
  map_gain_to_gpu_fan_speed
    (pid_controller 60 (push_history s.gpu_temperature_history ⟨env.gpuTemp k % 256⟩)
      POLLING_INTERVAL (1 / 2) (1 / 10) ((POLLING_INTERVAL : ℚ) * 2))

/-- CPU speed for the cycle: history pushed, then `pid_controller` with the
operating parameters of lines 256-263 (`kp=1.0`, `ki=0.1`,
`kd=POLLING_INTERVAL*0.5`), then `map_gain_to_cpu_fan_speed` (line 270). -/
def cpu_next_speed (env : MainEnv) (k : Nat) (s : ControlState) : Nat :=
  map_gain_to_cpu_fan_speed
    (pid_controller 60 (push_history s.cpu_temperature_history ⟨env.cpuTemp k % 256⟩)
      POLLING_INTERVAL 1 (1 / 10) ((POLLING_INTERVAL : ℚ) * (1 / 2)))

/-- One `Running` iteration of the `while` body (lines 246-281): push both
readings, compute both gains and mapped speeds, and for each subsystem write
the speed register only when the mapped speed differs from the last-applied
one (lines 266-274). A failed speed write makes the `?` operator return early
(`Except.error`); otherwise the updated state is carried to the next cycle.
The branches are the flattened form of the two sequential `if` blocks. -/
def cycle (env : MainEnv) (k : Nat) (s : ControlState) :
    List EcWrite × Except Unit ControlState :=
  let gh := push_history s.gpu_temperature_history ⟨env.gpuTemp k % 256⟩
  let ch := push_history s.cpu_temperature_history ⟨env.cpuTemp k % 256⟩
  let ng := gpu_next_speed env k s
  let nc := cpu_next_speed env k s
  if ng ≠ s.last_gpu_fan_speed then
    if env.gpuWriteOk k then
      if nc ≠ s.last_cpu_fan_speed then
        if env.cpuWriteOk k then
          ([⟨GPU_SPEED_CONTROL_REGISTER, ng⟩, ⟨CPU_SPEED_CONTROL_REGISTER, nc⟩],
           Except.ok ⟨gh, ch, ng, nc⟩)
        else
          ([⟨GPU_SPEED_CONTROL_REGISTER, ng⟩, ⟨CPU_SPEED_CONTROL_REGISTER, nc⟩],
           Except.error ())
      else ([⟨GPU_SPEED_CONTROL_REGISTER, ng⟩], Except.ok ⟨gh, ch, ng, s.last_cpu_fan_speed⟩)
    else ([⟨GPU_SPEED_CONTROL_REGISTER, ng⟩], Except.error ())
  else
    if nc ≠ s.last_cpu_fan_speed then
      if env.cpuWriteOk k then
        ([⟨CPU_SPEED_CONTROL_REGISTER, nc⟩], Except.ok ⟨gh, ch, s.last_gpu_fan_speed, nc⟩)
      else ([⟨CPU_SPEED_CONTROL_REGISTER, nc⟩], Except.error ())
    else ([], Except.ok ⟨gh, ch, s.last_gpu_fan_speed, s.last_cpu_fan_speed⟩)

/-- The `while !SHOULD_EXIT` loop (lines 245-282), with the cancellation flag
observed unset for `fuel` iteration boundaries and set at the next one. `k` is
the absolute iteration index. Returns the trace of speed writes and `true`
for a flag-observed exit, `false` for an early `?` return from a cycle. -/
def runLoop (env : MainEnv) : Nat → Nat → ControlState → List EcWrite × Bool
  | _, 0, _ => ([], true)
  | k, fuel + 1, s =>
    match cycle env k s with
    | (tr, Except.error _) => (tr, false)
    | (tr, Except.ok s2) =>
      let r := runLoop env (k + 1) fuel s2
      (tr ++ r.1, r.2)

/-- Exit status of `main`: `Ok(())` or a propagated `io::Error`. -/
inductive MainOutcome
  | ok
  | ioError
deriving DecidableEq

/-- `main` (lines 223-284): acquire the GPU lease, then the CPU lease (a
failed acquire propagates the error with `?` before the loop starts), run the
loop, and on every exit path drop the live leases in reverse declaration
order (Rust drop order: the CPU lease, declared second, is dropped first). -/
def runMain (env : MainEnv) (n : Nat) : List EcWrite × MainOutcome :=
  match HoldEcFanControl.new env.gpuAcquireOk GPU_CONTROL_REGISTER
      GPU_ACQUIRE_CONTROL GPU_RELEASE_CONTROL with
  | (tr1, none) => (tr1, MainOutcome.ioError)
  | (tr1, some hold_gpu) =>
    match HoldEcFanControl.new env.cpuAcquireOk CPU_CONTROL_REGISTER
        CPU_ACQUIRE_CONTROL CPU_RELEASE_CONTROL with
    | (tr2, none) => (tr1 ++ tr2 ++ [hold_gpu.drop], MainOutcome.ioError)
    | (tr2, some hold_cpu) =>
      let r := runLoop env 0 n ⟨[], [], 0, 0⟩
      (tr1 ++ tr2 ++ r.1 ++ [hold_cpu.drop, hold_gpu.drop],
       if r.2 then MainOutcome.ok else MainOutcome.ioError)

/-- A fully healthy environment with constant 70° readings. -/
def envAllOk : MainEnv :=
  ⟨true, true, fun _ => 70, fun _ => 70, fun _ => true, fun _ => true⟩

/-- An environment whose GPU acquire write fails. -/
def envGpuFail : MainEnv :=
  ⟨false, true, fun _ => 70, fun _ => 70, fun _ => true, fun _ => true⟩

/-! ## Claims about the PID computation -/

/-- Claim C4: on any window of at least two samples (newest-first) with
`error[i] = history[i] - target`, `pid_controller` returns exactly
`kp*error[0] + ki*(sum of all errors) + kd*((error[0]-error[1])/interval)`;
in particular for history `[90, 85, 80]` and target 60 the integral is 75 and
the derivative is `(30 - 25)/interval`. -/
theorem pid_controller_formula (target : ℚ) (x y : Temperature) (rest : List Temperature)
    (interval : Nat) (kp ki kd : ℚ) :
    pid_controller target (x :: y :: rest) interval kp ki kd =
      kp * ((x.val : ℚ) - target)
        + ki * ((x :: y :: rest).map fun h => (h.val : ℚ) - target).sum
        + kd * ((((x.val : ℚ) - target) - ((y.val : ℚ) - target)) / (interval : ℚ)) ∧
    pid_controller 60 [⟨90⟩, ⟨85⟩, ⟨80⟩] interval kp ki kd =
      kp * 30 + ki * 75 + kd * ((30 - 25) / (interval : ℚ)) := by
  constructor
  · simp [pid_controller]
  · norm_num [pid_controller]

/-- Claim C5: `pid_controller` returns exactly 0 on an empty window, and
exactly `kp * (x - target)` on a one-sample window, for every target,
interval and gain coefficients. -/
theorem pid_controller_empty_single (target : ℚ) (interval : Nat) (kp ki kd : ℚ)
    (x : Temperature) :
    pid_controller target [] interval kp ki kd = 0 ∧
    pid_controller target [x] interval kp ki kd = kp * ((x.val : ℚ) - target) :=
  ⟨rfl, rfl⟩

/-! ## Claims about the gain-to-speed mappers -/

/-- Claim C3, counterexample: at gain 0 the CPU mapper returns `0x30`, which
is none of the five `CPU_FAN_SPEED_COMMANDS` values, so the CPU mapper does
not return "one of the CPU's five named speed codes". -/
theorem map_gain_to_cpu_fan_speed_not_a_cpu_command :
    map_gain_to_cpu_fan_speed 0 = 0x30 ∧
    CPU_FAN_SPEED_COMMANDS._0_pc ≠ 0x30 ∧
    CPU_FAN_SPEED_COMMANDS._25_pc ≠ 0x30 ∧
    CPU_FAN_SPEED_COMMANDS._50_pc ≠ 0x30 ∧
    CPU_FAN_SPEED_COMMANDS._75_pc ≠ 0x30 ∧
    CPU_FAN_SPEED_COMMANDS._100_pc ≠ 0x30 := by
  decide

/-- Claim C3, amended: the GPU mapper returns the GPU's five named codes
(`GPU_FAN_SPEED_COMMANDS`) by thresholds `<15, <25, <35, <45`, else top step;
the CPU mapper partitions gains into seven buckets by thresholds
`<10, <20, <30, <40, <50, <60`, else top step, drawing on seven codes
`0x30 .. 0x60` that are not the `CPU_FAN_SPEED_COMMANDS` values. -/
theorem mapper_speed_codes (g : ℚ) :
    map_gain_to_gpu_fan_speed g =
      (if g < 15 then GPU_FAN_SPEED_COMMANDS._0_pc
       else if g < 25 then GPU_FAN_SPEED_COMMANDS._25_pc
       else if g < 35 then GPU_FAN_SPEED_COMMANDS._50_pc
       else if g < 45 then GPU_FAN_SPEED_COMMANDS._75_pc
       else GPU_FAN_SPEED_COMMANDS._100_pc) ∧
    map_gain_to_cpu_fan_speed g =
      (if g < 10 then 0x30 else if g < 20 then 0x38 else if g < 30 then 0x40
       else if g < 40 then 0x48 else if g < 50 then 0x50 else if g < 60 then 0x58
       else 0x60) ∧
    map_gain_to_cpu_fan_speed g ∉
      [CPU_FAN_SPEED_COMMANDS._0_pc, CPU_FAN_SPEED_COMMANDS._25_pc,
       CPU_FAN_SPEED_COMMANDS._50_pc, CPU_FAN_SPEED_COMMANDS._75_pc,
       CPU_FAN_SPEED_COMMANDS._100_pc] := by
  refine ⟨?_, ?_, ?_⟩
  all_goals simp only [map_gain_to_gpu_fan_speed, map_gain_to_cpu_fan_speed,
    GPU_FAN_SPEED_COMMANDS, CPU_FAN_SPEED_COMMANDS]
  all_goals split_ifs <;> decide

set_option maxHeartbeats 1600000 in
/-- Claim C6: both mappers are total and monotone — for gains `g1 < g2` the
mapped codes are non-decreasing (the codes ascend with the buckets), every
gain including negative ones maps to some step (negative gains to the lowest
bucket), and a gain exactly equal to any of the thresholds falls into the
higher bucket: GPU 15, 25, 35, 45 map to the four codes above the lowest,
and CPU 10, 20, 30, 40, 50, 60 map to the six codes above the lowest. -/
theorem mapper_monotone_total (g1 g2 g : ℚ) (h12 : g1 < g2) (hneg : g < 0) :
    map_gain_to_gpu_fan_speed g1 ≤ map_gain_to_gpu_fan_speed g2 ∧
    map_gain_to_cpu_fan_speed g1 ≤ map_gain_to_cpu_fan_speed g2 ∧
    map_gain_to_gpu_fan_speed g = 0x38 ∧
    map_gain_to_cpu_fan_speed g = 0x30 ∧
    map_gain_to_gpu_fan_speed 15 = 0x40 ∧
    map_gain_to_gpu_fan_speed 25 = 0x48 ∧
    map_gain_to_gpu_fan_speed 35 = 0x50 ∧
    map_gain_to_gpu_fan_speed 45 = 0x58 ∧
    map_gain_to_cpu_fan_speed 10 = 0x38 ∧
    map_gain_to_cpu_fan_speed 20 = 0x40 ∧
    map_gain_to_cpu_fan_speed 30 = 0x48 ∧
    map_gain_to_cpu_fan_speed 40 = 0x50 ∧
    map_gain_to_cpu_fan_speed 50 = 0x58 ∧
    map_gain_to_cpu_fan_speed 60 = 0x60 ∧
    map_gain_to_gpu_fan_speed g1 ∈ [0x38, 0x40, 0x48, 0x50, 0x58] ∧
    map_gain_to_cpu_fan_speed g1 ∈ [0x30, 0x38, 0x40, 0x48, 0x50, 0x58, 0x60] := by
  refine ⟨?_, ?_, ?_, ?_, ?_, ?_, ?_, ?_, ?_, ?_, ?_, ?_, ?_, ?_, ?_, ?_⟩
  · simp only [map_gain_to_gpu_fan_speed]
    split_ifs <;> first | omega | linarith
  · simp only [map_gain_to_cpu_fan_speed]
    split_ifs <;> first | omega | linarith
  · simp only [map_gain_to_gpu_fan_speed]
    split_ifs <;> first | rfl | linarith
  · simp only [map_gain_to_cpu_fan_speed]
    split_ifs <;> first | rfl | linarith
  · norm_num [map_gain_to_gpu_fan_speed]
  · norm_num [map_gain_to_gpu_fan_speed]
  · norm_num [map_gain_to_gpu_fan_speed]
  · norm_num [map_gain_to_gpu_fan_speed]
  · norm_num [map_gain_to_cpu_fan_speed]
  · norm_num [map_gain_to_cpu_fan_speed]
  · norm_num [map_gain_to_cpu_fan_speed]
  · norm_num [map_gain_to_cpu_fan_speed]
  · norm_num [map_gain_to_cpu_fan_speed]
  · norm_num [map_gain_to_cpu_fan_speed]
  · simp only [map_gain_to_gpu_fan_speed]
    split_ifs <;> simp
  · simp only [map_gain_to_cpu_fan_speed]
    split_ifs <;> simp

/-- Witness for C6 at `g1 = -3`, `g2 = 15`, `g = -1`. -/
theorem mapper_monotone_total_witness :
    map_gain_to_gpu_fan_speed (-3) ≤ map_gain_to_gpu_fan_speed 15 ∧
    map_gain_to_cpu_fan_speed (-3) ≤ map_gain_to_cpu_fan_speed 15 ∧
    map_gain_to_gpu_fan_speed (-1) = 0x38 ∧
    map_gain_to_cpu_fan_speed (-1) = 0x30 ∧
    map_gain_to_gpu_fan_speed 15 = 0x40 ∧
    map_gain_to_gpu_fan_speed 25 = 0x48 ∧
    map_gain_to_gpu_fan_speed 35 = 0x50 ∧
    map_gain_to_gpu_fan_speed 45 = 0x58 ∧
    map_gain_to_cpu_fan_speed 10 = 0x38 ∧
    map_gain_to_cpu_fan_speed 20 = 0x40 ∧
    map_gain_to_cpu_fan_speed 30 = 0x48 ∧
    map_gain_to_cpu_fan_speed 40 = 0x50 ∧
    map_gain_to_cpu_fan_speed 50 = 0x58 ∧
    map_gain_to_cpu_fan_speed 60 = 0x60 ∧
    map_gain_to_gpu_fan_speed (-3) ∈ [0x38, 0x40, 0x48, 0x50, 0x58] ∧
    map_gain_to_cpu_fan_speed (-3) ∈ [0x30, 0x38, 0x40, 0x48, 0x50, 0x58, 0x60] :=
  mapper_monotone_total (-3) 15 (-1) (by norm_num) (by norm_num)

/-! ## Decimal-token round trip -/

lemma toDigitsAux_lt (fuel n : Nat) : ∀ d ∈ toDigitsAux fuel n, d < 10 := by
  induction fuel generalizing n with
  | zero => simp [toDigitsAux]
  | succ f ih =>
    intro d hd
    by_cases hn : n = 0
    · simp [toDigitsAux, hn] at hd
    · rw [toDigitsAux, if_neg hn] at hd
      rcases List.mem_cons.mp hd with h1 | h2
      · subst h1; exact Nat.mod_lt _ (by norm_num)
      · exact ih (n / 10) d h2

lemma toDigitsAux_ne_nil (n : Nat) (h : n ≠ 0) : toDigitsAux n n ≠ [] := by
  cases n with
  | zero => exact absurd rfl h
  | succ m => simp [toDigitsAux]

lemma ofDigitsLE_toDigitsAux (fuel : Nat) : ∀ n ≤ fuel, ofDigitsLE (toDigitsAux fuel n) = n := by
  induction fuel with
  | zero =>
    intro n hn
    have h0 : n = 0 := by omega
    subst h0
    rfl
  | succ f ih =>
    intro n hn
    by_cases h0 : n = 0
    · simp [toDigitsAux, h0, ofDigitsLE]
    · rw [toDigitsAux, if_neg h0, ofDigitsLE]
      have hdiv : n / 10 ≤ f := by
        have := Nat.div_lt_self (Nat.pos_of_ne_zero h0) (by norm_num : 1 < 10)
        omega
      rw [ih (n / 10) hdiv]
      omega

lemma digitChar_toNat (d : Nat) (h : d < 10) : (Nat.digitChar d).toNat = d + 48 := by
  interval_cases d <;> decide

lemma digitChar_isDigit (d : Nat) (h : d < 10) : (Nat.digitChar d).isDigit = true := by
  interval_cases d <;> decide

lemma digitChar_ne_plus_sign (d : Nat) (h : d < 10) : Nat.digitChar d ≠ '+' := by
  interval_cases d <;> decide

lemma foldl_digitChar (l : List Nat) (h : ∀ d ∈ l, d < 10) (a : Nat) :
    List.foldl (fun acc c => 10 * acc + (c.toNat - 48)) a (l.map Nat.digitChar) =
    List.foldl (fun acc d => 10 * acc + d) a l := by
  induction l generalizing a with
  | nil => rfl
  | cons d t ih =>
    have hd : d < 10 := h d (List.mem_cons_self d t)
    simp only [List.map_cons, List.foldl_cons, digitChar_toNat d hd]
    rw [ih (fun x hx => h x (List.mem_cons_of_mem d hx))]
    congr 1

lemma foldl_base10_reverse (l : List Nat) (a : Nat) :
    List.foldl (fun acc d => 10 * acc + d) a l.reverse =
    a * 10 ^ l.length + ofDigitsLE l := by
  induction l generalizing a with
  | nil => simp [ofDigitsLE]
  | cons d t ih =>
    simp only [List.reverse_cons, List.foldl_append, List.foldl_cons, List.foldl_nil,
      ofDigitsLE, List.length_cons, ih]
    ring

/-- Parsing inverts printing: the decimal token of any 64-bit value parses
back to that value. -/
lemma parse_u64_natToken (n : Nat) (h : n < 2 ^ 64) : parse_u64 (natToken n) = some n := by
  by_cases hn : n = 0
  · subst hn; decide
  · have hlt : ∀ d ∈ (toDigitsAux n n).reverse, d < 10 := fun d hd =>
      toDigitsAux_lt n n d (List.mem_reverse.mp hd)
    obtain ⟨d, t, hdt⟩ : ∃ d t, (toDigitsAux n n).reverse = d :: t := by
      cases hrev : (toDigitsAux n n).reverse with
      | nil => exact absurd (List.reverse_eq_nil_iff.mp hrev) (toDigitsAux_ne_nil n hn)
      | cons d t => exact ⟨d, t, rfl⟩
    have hd10 : d < 10 := hlt d (hdt ▸ List.mem_cons_self d t)
    have hfold : List.foldl (fun acc c => 10 * acc + (c.toNat - 48)) 0
        (((toDigitsAux n n).reverse).map Nat.digitChar) = n := by
      rw [foldl_digitChar _ hlt 0, foldl_base10_reverse (toDigitsAux n n) 0,
        ofDigitsLE_toDigitsAux n n le_rfl]
      ring
    have hall : (((toDigitsAux n n).reverse).map Nat.digitChar).all Char.isDigit = true := by
      rw [List.all_eq_true]
      intro c hc
      obtain ⟨x, hx, hxc⟩ := List.mem_map.mp hc
      exact hxc ▸ digitChar_isDigit x (hlt x hx)
    have hstrip : stripPlusSign ((((toDigitsAux n n).reverse)).map Nat.digitChar)
        = (((toDigitsAux n n).reverse)).map Nat.digitChar := by
      rw [hdt]
      simp [stripPlusSign, digitChar_ne_plus_sign d hd10]
    have hne : ((((toDigitsAux n n).reverse)).map Nat.digitChar).isEmpty = false := by
      rw [hdt]; rfl
    have hne2 : ¬(((((toDigitsAux n n).reverse)).map Nat.digitChar).isEmpty = true) := by
      rw [hne]
      simp
    unfold natToken
    rw [if_neg hn]
    simp only [parse_u64]
    rw [hstrip, if_neg hne2, if_pos hall, hfold, if_pos h]

/-! ## Claims about milli-degree parsing -/

/-- On a token parsing as `t`, `from_milli_c` computes `t / 1000 % 256`. -/
lemma from_milli_c_eq (s : String) (t : Nat) (hp : parse_u64 s = some t) :
    Temperature.from_milli_c s = Except.ok ⟨t / 1000 % 256⟩ := by
  simp [Temperature.from_milli_c, hp]

/-- Claim C10: for every token parsing as a 64-bit unsigned integer `t`,
`Temperature::from_milli_c` returns `Temperature((t / 1000) % 256)` — the
`as u8` narrowing wraps modulo 256 rather than failing or saturating. -/
theorem from_milli_c_wraps (s : String) (t : Nat) (hp : parse_u64 s = some t) :
    Temperature.from_milli_c s = Except.ok ⟨t / 1000 % 256⟩ :=
  from_milli_c_eq s t hp

/-- Witness for C10 at the token `"256000"`: 256 milli-kilodegrees wraps to
temperature 0. -/
theorem from_milli_c_wraps_witness :
    parse_u64 "256000" = some 256000 ∧
    Temperature.from_milli_c "256000" = Except.ok ⟨0⟩ :=
  ⟨by decide, from_milli_c_wraps "256000" 256000 (by decide)⟩

/-- Claim C7, counterexample: at `t = 256`, `r = 0` the decimal token is
`"256000"`; it parses successfully, but the result is `Temperature(0)`, not
`Temperature(256)` — the narrowing cast wraps, so the floor-division claim
fails for `t ≥ 256`. -/
theorem from_milli_c_floor_div_fails_at_256 :
    natToken (1000 * 256 + 0) = "256000" ∧
    Temperature.from_milli_c (natToken (1000 * 256 + 0)) = Except.ok ⟨0⟩ ∧
    (⟨0⟩ : Temperature) ≠ ⟨256⟩ := by
  refine ⟨by decide, by rfl, by decide⟩

/-- Claim C7, amended: for every `t < 256` and remainder `r < 1000`, parsing
the decimal token for `1000*t + r` with `from_milli_c` succeeds and returns
`Temperature(t)` (floor division by 1000 discards the sub-degree part; the
bound `t < 256` keeps the `as u8` narrowing the identity). -/
theorem from_milli_c_floor_div (t r : Nat) (ht : t < 256) (hr : r < 1000) :
    Temperature.from_milli_c (natToken (1000 * t + r)) = Except.ok ⟨t⟩ := by
  have hlt : 1000 * t + r < 2 ^ 64 := by omega
  rw [from_milli_c_eq (natToken (1000 * t + r)) (1000 * t + r)
    (parse_u64_natToken (1000 * t + r) hlt)]
  have hdiv : (1000 * t + r) / 1000 % 256 = t := by omega
  rw [hdiv]

/-- Witness for C7 (amended) at `t = 61`, `r = 500`. -/
theorem from_milli_c_floor_div_witness :
    Temperature.from_milli_c (natToken (1000 * 61 + 500)) = Except.ok ⟨61⟩ :=
  from_milli_c_floor_div 61 500 (by decide) (by decide)

/-! ## Claims about the CPU temperature reader -/

/-- Claim C9, counterexample: the file content `"54000"` is a milli-degree
integer token without a trailing newline; `read_i7_cpu_temp` does not return
the parsed temperature for it — the `.unwrap()` on `strip_suffix` panics
(the `none` outcome), so non-newline-terminated content is not accepted. -/
theorem read_i7_cpu_temp_panics_without_newline :
    parse_u64 "54000" = some 54000 ∧
    read_i7_cpu_temp "54000" = none ∧
    (none : Option (Except TemperatureParseError Temperature))
      ≠ some (Except.ok ⟨54⟩) := by
  refine ⟨by decide, by rfl, by simp⟩

/-- Claim C9, amended: the reader accepts exactly the newline-terminated
contents: for a content that is a milli-degree token followed by `'\n'` it
strips the newline and returns the parsed temperature, while any content not
ending in `'\n'` makes the `.unwrap()` panic. -/
theorem read_i7_cpu_temp_newline (s : String) (t : Nat) (hp : parse_u64 s = some t) :
    read_i7_cpu_temp (s ++ "\n") = some (Except.ok ⟨t / 1000 % 256⟩) ∧
    (∀ s2 : String, s2.data.getLast? ≠ some '\n' → read_i7_cpu_temp s2 = none) := by
  constructor
  · have hdata : (s ++ "\n").data = s.data ++ ['\n'] := by
      simp [String.data_append]
    have hstrip : strip_newline (s ++ "\n") = some s := by
      simp only [strip_newline, hdata, List.getLast?_concat, List.dropLast_concat, if_pos]
    simp [read_i7_cpu_temp, hstrip, Temperature.from_milli_c, hp]
  · intro s2 hs2
    cases hl : s2.data.getLast? with
    | none => simp [read_i7_cpu_temp, strip_newline, hl]
    | some c =>
      have hc : ¬(c = '\n') := fun hcn => hs2 (by rw [hl, hcn])
      simp [read_i7_cpu_temp, strip_newline, hl, hc]

/-- Witness for C9 (amended) at content token `"54000"`. -/
theorem read_i7_cpu_temp_newline_witness :
    read_i7_cpu_temp ("54000" ++ "\n") = some (Except.ok ⟨54⟩) :=
  (read_i7_cpu_temp_newline "54000" 54000 (by decide)).1

/-! ## Trace lemmas for the control loop -/

lemma countWrite_append (a b : List EcWrite) (w : EcWrite) :
    countWrite (a ++ b) w = countWrite a w + countWrite b w := by
  simp [countWrite, List.filter_append]

lemma countWrite_eq_zero (tr : List EcWrite) (w : EcWrite) (h : ∀ x ∈ tr, x ≠ w) :
    countWrite tr w = 0 := by
  rw [countWrite, List.length_eq_zero, List.filter_eq_nil_iff]
  intro x hx
  simp [h x hx]

/-- Every code the CPU mapper can emit is at least `0x30`; in particular it is
never the CPU release command `0x00`. -/
lemma cpu_speed_code_lb (g : ℚ) : 48 ≤ map_gain_to_cpu_fan_speed g := by
  simp only [map_gain_to_cpu_fan_speed]
  split_ifs <;> omega

/-- Every write a cycle issues goes to a speed register, and a CPU-side write
carries a mapper code (never a release byte). -/
lemma cycle_writes (env : MainEnv) (k : Nat) (s : ControlState) :
    ∀ w ∈ (cycle env k s).1,
      w.reg = GPU_SPEED_CONTROL_REGISTER ∨
      (w.reg = CPU_SPEED_CONTROL_REGISTER ∧ 48 ≤ w.val) := by
  intro w hw
  have hlb : 48 ≤ cpu_next_speed env k s := by
    unfold cpu_next_speed
    exact cpu_speed_code_lb _
  simp only [cycle] at hw
  split_ifs at hw <;>
    simp only [List.mem_cons, List.mem_singleton, List.not_mem_nil, or_false] at hw
  all_goals try rcases hw with hw | hw
  all_goals try subst hw
  all_goals first | (left; rfl) | (right; exact ⟨rfl, hlb⟩)

/-- `runLoop` writes only to speed registers, and any write to the shared
CPU register `0xf4` carries a mapper code `≥ 0x30`. -/
lemma runLoop_writes (env : MainEnv) (fuel : Nat) : ∀ (k : Nat) (s : ControlState),
    ∀ w ∈ (runLoop env k fuel s).1,
      w.reg = GPU_SPEED_CONTROL_REGISTER ∨
      (w.reg = CPU_SPEED_CONTROL_REGISTER ∧ 48 ≤ w.val) := by
  induction fuel with
  | zero =>
    intro k s w hw
    simp [runLoop] at hw
  | succ f ih =>
    intro k s w hw
    rcases hcy : cycle env k s with ⟨tr, r⟩
    have hcw : ∀ x ∈ tr, x.reg = GPU_SPEED_CONTROL_REGISTER ∨
        (x.reg = CPU_SPEED_CONTROL_REGISTER ∧ 48 ≤ x.val) := fun x hx =>
      cycle_writes env k s x (by rw [hcy]; exact hx)
    cases r with
    | error e =>
      simp only [runLoop, hcy] at hw
      exact hcw w hw
    | ok s2 =>
      simp only [runLoop, hcy] at hw
      rcases List.mem_append.mp hw with h | h
      · exact hcw w h
      · exact ih (k + 1) s2 w h

/-! ## Claims about the lease lifecycle and startup -/

/-- Claim C1: whenever both leases were acquired (so the loop actually ran
and then stopped — by observing the cancellation flag after `n` iterations,
or by an early `?` return from a failed speed write inside the loop), the
trace of `main` contains the GPU release write and the CPU release write
exactly once each: never zero times and never twice. -/
theorem lease_release_exactly_once (env : MainEnv) (n : Nat)
    (hg : env.gpuAcquireOk = true) (hc : env.cpuAcquireOk = true) :
    countWrite (runMain env n).1 ⟨GPU_CONTROL_REGISTER, GPU_RELEASE_CONTROL⟩ = 1 ∧
    countWrite (runMain env n).1 ⟨CPU_CONTROL_REGISTER, CPU_RELEASE_CONTROL⟩ = 1 := by
  have hloop := runLoop_writes env n 0 ⟨[], [], 0, 0⟩
  have hzero1 : countWrite (runLoop env 0 n ⟨[], [], 0, 0⟩).1
      ⟨GPU_CONTROL_REGISTER, GPU_RELEASE_CONTROL⟩ = 0 := by
    apply countWrite_eq_zero
    intro x hx hxw
    rcases hloop x hx with h | ⟨h, _⟩
    · rw [hxw] at h
      exact absurd h (by decide)
    · rw [hxw] at h
      exact absurd h (by decide)
  have hzero2 : countWrite (runLoop env 0 n ⟨[], [], 0, 0⟩).1
      ⟨CPU_CONTROL_REGISTER, CPU_RELEASE_CONTROL⟩ = 0 := by
    apply countWrite_eq_zero
    intro x hx hxw
    rcases hloop x hx with h | ⟨_, hv⟩
    · rw [hxw] at h
      exact absurd h (by decide)
    · rw [hxw] at hv
      exact absurd hv (by decide)
  simp only [runMain, HoldEcFanControl.new, hg, hc, if_true, HoldEcFanControl.drop]
  rw [countWrite_append, countWrite_append, countWrite_append,
    countWrite_append, countWrite_append, countWrite_append, hzero1, hzero2]
  refine ⟨?_, ?_⟩ <;> norm_num <;> decide

/-- Claim C2: `HoldEcFanControl::new` issues exactly the acquire write and
returns a lease value if and only if that write succeeds; and when either
acquire write fails, `main` stops with the I/O error before entering the
control loop — no speed write happens and no release write is issued for a
subsystem whose lease was never produced. -/
theorem acquire_failure_aborts (ok : Bool) (reg acq rel : Nat) (env : MainEnv) (n : Nat) :
    (HoldEcFanControl.new ok reg acq rel).1 = [⟨reg, acq⟩] ∧
    ((HoldEcFanControl.new ok reg acq rel).2.isSome ↔ ok = true) ∧
    (env.gpuAcquireOk = false →
      runMain env n = ([⟨GPU_CONTROL_REGISTER, GPU_ACQUIRE_CONTROL⟩], MainOutcome.ioError)) ∧
    (env.gpuAcquireOk = true → env.cpuAcquireOk = false →
      runMain env n = ([⟨GPU_CONTROL_REGISTER, GPU_ACQUIRE_CONTROL⟩,
        ⟨CPU_CONTROL_REGISTER, CPU_ACQUIRE_CONTROL⟩,
        ⟨GPU_CONTROL_REGISTER, GPU_RELEASE_CONTROL⟩], MainOutcome.ioError)) := by
  refine ⟨rfl, ?_, ?_, ?_⟩
  · cases ok <;> simp [HoldEcFanControl.new]
  · intro hg
    simp [runMain, HoldEcFanControl.new, hg]
  · intro hg hc
    simp [runMain, HoldEcFanControl.new, hg, hc, HoldEcFanControl.drop]

/-- Witness for C2: with a failing GPU acquire the whole run is the single
acquire attempt plus the error outcome. -/
theorem acquire_failure_aborts_witness :
    runMain envGpuFail 2 = ([⟨GPU_CONTROL_REGISTER, GPU_ACQUIRE_CONTROL⟩], MainOutcome.ioError) :=
  (acquire_failure_aborts true 0 0 0 envGpuFail 2).2.2.1 rfl

/-! ## Claim about hysteresis -/

/-- Claim C8: in a Running cycle whose writes are accepted, the cycle writes
the GPU (resp. CPU) speed register exactly once if the newly mapped step
differs from the last-applied step in the loop state, and not at all if it
is equal; and the resulting state records the mapped steps as last-applied,
so a consecutive cycle mapping to the same step performs no further write. -/
theorem hysteresis_write_iff_changed (env : MainEnv) (k : Nat) (s : ControlState)
    (hg : env.gpuWriteOk k = true) (hc : env.cpuWriteOk k = true) :
    countReg (cycle env k s).1 GPU_SPEED_CONTROL_REGISTER =
      (if gpu_next_speed env k s ≠ s.last_gpu_fan_speed then 1 else 0) ∧
    countReg (cycle env k s).1 CPU_SPEED_CONTROL_REGISTER =
      (if cpu_next_speed env k s ≠ s.last_cpu_fan_speed then 1 else 0) ∧
    (cycle env k s).2 = Except.ok
      ⟨push_history s.gpu_temperature_history ⟨env.gpuTemp k % 256⟩,
       push_history s.cpu_temperature_history ⟨env.cpuTemp k % 256⟩,
       gpu_next_speed env k s, cpu_next_speed env k s⟩ := by
  simp only [cycle, hg, hc, if_true]
  split_ifs with h1 h2 h2 <;>
    simp only [countReg, List.filter, GPU_SPEED_CONTROL_REGISTER,
      CPU_SPEED_CONTROL_REGISTER] <;>
    norm_num <;>
    simp_all

/-- Witness for C8: first cycle of the healthy environment from the initial
state (last-applied speeds `0x0`), where both mapped steps differ from the
last-applied ones. -/
theorem hysteresis_write_iff_changed_witness :
    countReg (cycle envAllOk 0 ⟨[], [], 0, 0⟩).1 GPU_SPEED_CONTROL_REGISTER =
      (if gpu_next_speed envAllOk 0 ⟨[], [], 0, 0⟩ ≠ 0 then 1 else 0) ∧
    countReg (cycle envAllOk 0 ⟨[], [], 0, 0⟩).1 CPU_SPEED_CONTROL_REGISTER =
      (if cpu_next_speed envAllOk 0 ⟨[], [], 0, 0⟩ ≠ 0 then 1 else 0) ∧
    (cycle envAllOk 0 ⟨[], [], 0, 0⟩).2 = Except.ok
      ⟨push_history [] ⟨envAllOk.gpuTemp 0 % 256⟩,
       push_history [] ⟨envAllOk.cpuTemp 0 % 256⟩,
       gpu_next_speed envAllOk 0 ⟨[], [], 0, 0⟩, cpu_next_speed envAllOk 0 ⟨[], [], 0, 0⟩⟩ :=
  hysteresis_write_iff_changed envAllOk 0 ⟨[], [], 0, 0⟩ rfl rfl

/-- Witness for C1: a healthy run that is cancelled after one full cycle
contains each release write exactly once. -/
theorem lease_release_exactly_once_witness :
    countWrite (runMain envAllOk 1).1 ⟨GPU_CONTROL_REGISTER, GPU_RELEASE_CONTROL⟩ = 1 ∧
    countWrite (runMain envAllOk 1).1 ⟨CPU_CONTROL_REGISTER, CPU_RELEASE_CONTROL⟩ = 1 :=
  lease_release_exactly_once envAllOk 1 rfl rfl
